import Mathlib

/-!
Shallow embedding of the pysonica web-service scaffold, covering the
database session-manager lifecycle (src/app/database/session.py), the
domain-error taxonomy (src/app/errors/exceptions.py), the exception
handlers (src/app/errors/handlers.py), the catch-all ASGI middleware
(src/app/errors/middleware.py), the security-headers and access-log
middleware (src/app/security/middleware.py, src/app/logging/middleware.py)
and the health readiness endpoint (src/app/health/routes.py).

Conventions of the embedding:
- Python exceptions are values of `Exn` (class name plus message); fallible
  code returns `Except Exn`.
- ASGI header names inside a scope are already lowercase (the ASGI
  specification requires servers to lowercase them); header bytes are
  modelled as `String`s.
- Python `dict`s are association lists with insertion order and in-place
  update, via `pyDictSet` / `pyDictPop`.
- Wall-clock quantities (request duration, the numeric value of the
  readiness timeout) are not embedded; a readiness condition's behaviour
  under `asyncio.wait_for` is abstracted as a `CheckOutcome` (returned a
  Bool, timed out, or raised).
-/

set_option autoImplicit false

namespace Pysonica

/-- A Python exception value: its class name and its message. -/
structure Exn where
  typeName : String
  message : String
deriving DecidableEq, Repr

/-- Python dict assignment `d[k] = v`: replaces the value in place when the
key is present, otherwise appends the new pair (insertion order). -/
def pyDictSet {α : Type} (d : List (String × α)) (k : String) (v : α) :
    List (String × α) :=
  if d.any (fun p => p.1 == k) then
    d.map (fun p => if p.1 == k then (k, v) else p)
  else
    d ++ [(k, v)]

/-- Python `d.pop(k, None)`: removes the key when present. -/
def pyDictPop {α : Type} (d : List (String × α)) (k : String) :
    List (String × α) :=
  d.filter (fun p => p.1 != k)

/-- Python `d.get(k)` on a dict / first-match lookup on headers. -/
def pyDictGet {α : Type} (d : List (String × α)) (k : String) : Option α :=
  (d.find? (fun p => p.1 == k)).map (fun p => p.2)

/-- Python `s.lower()`, as a character-wise map (ASCII header names). -/
def pyLower (s : String) : String := String.mk (s.data.map Char.toLower)

/-! ### Database session manager (src/app/database/session.py) -/

/-- A keyword-argument value passed to `create_async_engine`. -/
inductive Kwarg
  | nat (n : Nat)
  | bool (b : Bool)
  | str (s : String)
deriving DecidableEq, Repr

/-- Arguments of `DatabaseSessionManager.init`, with the source defaults. -/
structure InitArgs where
  url : String
  pool_size : Nat := 5
  max_overflow : Nat := 10
  pool_pre_ping : Bool := true
  echo : Bool := false
  pool_class : Option String := none
deriving DecidableEq, Repr

/-- The `engine_kwargs` dict built inside `init`: `poolclass` when a pool
class override is given, otherwise `pool_size` and `max_overflow`. -/
def engineKwargs (a : InitArgs) : List (String × Kwarg) :=
  let base := [("pool_pre_ping", Kwarg.bool a.pool_pre_ping),
               ("echo", Kwarg.bool a.echo)]
  match a.pool_class with
  | some c => base ++ [("poolclass", Kwarg.str c)]
  | none => base ++ [("pool_size", Kwarg.nat a.pool_size),
                     ("max_overflow", Kwarg.nat a.max_overflow)]

/-- An async engine, identified by the URL and kwargs it was created with. -/
structure Engine where
  url : String
  kwargs : List (String × Kwarg)
deriving DecidableEq, Repr

/-- An `async_sessionmaker` bound to an engine, `expire_on_commit=False`. -/
structure SessionFactory where
  bind : Engine
  expire_on_commit : Bool
deriving DecidableEq, Repr

/-- The two instance attributes of `DatabaseSessionManager`. -/
structure DatabaseSessionManager where
  _engine : Option Engine
  _sessionmaker : Option SessionFactory
deriving DecidableEq, Repr

/-- The constructor `DatabaseSessionManager.__init__`: both handles None. -/
def DatabaseSessionManager.new : DatabaseSessionManager :=
  { _engine := none, _sessionmaker := none }

/-- The method `init`: creates the engine and the session factory,
replacing any prior pair. -/
def DatabaseSessionManager.init (m : DatabaseSessionManager) (a : InitArgs) :
    DatabaseSessionManager :=
  let engine : Engine := { url := a.url, kwargs := engineKwargs a }
  { m with
    _engine := some engine,
    _sessionmaker := some { bind := engine, expire_on_commit := false } }

/-- The method `close`: under `if self._engine:` disposes the pool and
resets both handles to None; a no-op when the engine is absent. -/
def DatabaseSessionManager.close (m : DatabaseSessionManager) :
    DatabaseSessionManager :=
  if m._engine.isSome then { m with _engine := none, _sessionmaker := none }
  else m

/-- The RuntimeError raised by `_check_init`. -/
def notInitializedExn : Exn :=
  { typeName := "RuntimeError",
    message := "DatabaseSessionManager is not initialized. Call init() first." }

/-- The method `_check_init`: raises RuntimeError when either handle is
None. -/
def DatabaseSessionManager._check_init (m : DatabaseSessionManager) :
    Except Exn Unit :=
  if m._engine.isNone || m._sessionmaker.isNone then
    Except.error notInitializedExn
  else
    Except.ok ()

/-- Observable operations on the session owned by a scope. -/
inductive SessionEvent
  | commit
  | rollback
  | close
deriving DecidableEq, Repr

/-- How the body of a scoped `async with` block ends: normally, or by
raising an exception. -/
inductive BodyOutcome
  | ok
  | raises (e : Exn)
deriving DecidableEq, Repr

/-- The trace of one execution of a scope: session events in order, and
the exception re-raised out of the scope, if any. -/
structure ScopeTrace where
  events : List SessionEvent
  reraised : Option Exn
deriving DecidableEq, Repr

/-- The `try`/`except`/`raise` part of `session`: commit after a normal
yield, rollback and re-raise on an exception from the body. -/
def sessionTryBlock : BodyOutcome → List SessionEvent × Option Exn
  | BodyOutcome.ok => ([SessionEvent.commit], none)
  | BodyOutcome.raises e => ([SessionEvent.rollback], some e)

/-- The method `session`: `_check_init`, then the try/except with a
`finally: await session.close()`. -/
def DatabaseSessionManager.session (m : DatabaseSessionManager)
    (body : BodyOutcome) : Except Exn ScopeTrace :=
  (m._check_init).map fun _ =>
    let r := sessionTryBlock body
    { events := r.1 ++ [SessionEvent.close], reraised := r.2 }

/-- The method `connect`: `_check_init`, then `engine.begin()`, whose
scope commits on normal exit and rolls back and re-raises on an
exception from the body. -/
def DatabaseSessionManager.connect (m : DatabaseSessionManager)
    (body : BodyOutcome) : Except Exn ScopeTrace :=
  (m._check_init).map fun _ =>
    match body with
    | BodyOutcome.ok => { events := [SessionEvent.commit], reraised := none }
    | BodyOutcome.raises e =>
        { events := [SessionEvent.rollback], reraised := some e }

/-- The operations a caller can perform on a manager instance. -/
inductive ManagerOp
  | init (a : InitArgs)
  | close
  | session (b : BodyOutcome)
  | connect (b : BodyOutcome)
deriving DecidableEq, Repr

/-- The state transition of each operation: `session` and `connect` never
modify the manager's attributes. -/
def managerStep (m : DatabaseSessionManager) : ManagerOp →
    DatabaseSessionManager
  | ManagerOp.init a => m.init a
  | ManagerOp.close => m.close
  | ManagerOp.session _ => m
  | ManagerOp.connect _ => m

/-- The manager state reached from a fresh instance after a sequence of
operations. -/
def managerRun (ops : List ManagerOp) : DatabaseSessionManager :=
  ops.foldl managerStep DatabaseSessionManager.new

/-! ### Domain error taxonomy (src/app/errors/exceptions.py) -/

/-- A constructed domain exception object: its class name, the
`status_code` and `detail` attributes after `__init__`, and the `extra`
context mapping (diagnostic only). -/
structure DomainError where
  className : String
  status_code : Nat
  detail : String
  extra : List (String × String)
deriving DecidableEq, Repr

/-- Class attribute `DomainError.status_code`. -/
def DomainError.classStatus : Nat := 500

/-- Class attribute `DomainError.detail`. -/
def DomainError.classDetail : String := "An unexpected error occurred."

/-- The shared `DomainError.__init__`: a non-None `detail` argument
overrides the class attribute, a non-None `status_code` argument overrides
the (sub)class attribute, and the keyword context becomes `extra`. -/
def domainErrorInit (className : String) (classStatus : Nat)
    (detail : Option String) (status_code : Option Nat)
    (extra : List (String × String)) : DomainError :=
  { className := className,
    status_code := status_code.getD classStatus,
    detail := detail.getD DomainError.classDetail,
    extra := extra }

/-- Constructing a `DomainError` directly (class default status 500). -/
def DomainError.new (detail : Option String := none)
    (status_code : Option Nat := none)
    (extra : List (String × String) := []) : DomainError :=
  domainErrorInit "DomainError" DomainError.classStatus detail status_code extra

/-- Constructing a `NotFoundError`: its own `__init__` calls
`super().__init__(detail=f"resource not found")` (class status 404, no
status override) and then assigns `extra`. -/
def NotFoundError.new (resource : String := "Resource")
    (extra : List (String × String) := []) : DomainError :=
  let base := domainErrorInit "NotFoundError" 404
    (some (resource ++ " not found")) none []
  { base with extra := extra }

/-- Constructing a `ConflictError` (class status 409, inherited init). -/
def ConflictError.new (detail : Option String := none)
    (status_code : Option Nat := none)
    (extra : List (String × String) := []) : DomainError :=
  domainErrorInit "ConflictError" 409 detail status_code extra

/-- Constructing a domain `ValidationError` (class status 422). -/
def ValidationError.new (detail : Option String := none)
    (status_code : Option Nat := none)
    (extra : List (String × String) := []) : DomainError :=
  domainErrorInit "ValidationError" 422 detail status_code extra

/-- Constructing a `PermissionDeniedError` (class status 403). -/
def PermissionDeniedError.new (detail : Option String := none)
    (status_code : Option Nat := none)
    (extra : List (String × String) := []) : DomainError :=
  domainErrorInit "PermissionDeniedError" 403 detail status_code extra

/-- Constructing an `AuthenticationError` (class status 401). -/
def AuthenticationError.new (detail : Option String := none)
    (status_code : Option Nat := none)
    (extra : List (String × String) := []) : DomainError :=
  domainErrorInit "AuthenticationError" 401 detail status_code extra

/-- Any way a domain failure can be constructed: one case per subkind,
each carrying the optional constructor overrides the source accepts. -/
inductive DomainErrorCtor
  | generic (detail : Option String) (status_code : Option Nat)
      (extra : List (String × String))
  | notFound (resource : String) (extra : List (String × String))
  | conflict (detail : Option String) (status_code : Option Nat)
      (extra : List (String × String))
  | validation (detail : Option String) (status_code : Option Nat)
      (extra : List (String × String))
  | permissionDenied (detail : Option String) (status_code : Option Nat)
      (extra : List (String × String))
  | authentication (detail : Option String) (status_code : Option Nat)
      (extra : List (String × String))
deriving DecidableEq, Repr

/-- Running the constructor. -/
def DomainErrorCtor.construct : DomainErrorCtor → DomainError
  | DomainErrorCtor.generic d s e => DomainError.new d s e
  | DomainErrorCtor.notFound r e => NotFoundError.new r e
  | DomainErrorCtor.conflict d s e => ConflictError.new d s e
  | DomainErrorCtor.validation d s e => ValidationError.new d s e
  | DomainErrorCtor.permissionDenied d s e => PermissionDeniedError.new d s e
  | DomainErrorCtor.authentication d s e => AuthenticationError.new d s e

/-- The failure's status hint as the spec words it: the constructor
override when one was given, otherwise the subkind's class default. -/
def DomainErrorCtor.statusHint : DomainErrorCtor → Nat
  | DomainErrorCtor.generic _ s _ => s.getD 500
  | DomainErrorCtor.notFound _ _ => 404
  | DomainErrorCtor.conflict _ s _ => s.getD 409
  | DomainErrorCtor.validation _ s _ => s.getD 422
  | DomainErrorCtor.permissionDenied _ s _ => s.getD 403
  | DomainErrorCtor.authentication _ s _ => s.getD 401

/-! ### Error response schema and handlers (src/app/errors/schemas.py,
src/app/errors/handlers.py) -/

/-- The wire schema `ErrorResponse` (field order: detail, status_code,
request_id; `request_id` defaults to the empty string). -/
structure ErrorResponse where
  detail : String
  status_code : Nat
  request_id : String
deriving DecidableEq, Repr

/-- A Starlette `Request`, reduced to what the handlers read: its headers
with lowercase names. -/
structure Request where
  headers : List (String × String)
deriving DecidableEq, Repr

/-- The helper `_get_request_id`: `request.headers.get("x-request-id", "")`. -/
def _get_request_id (r : Request) : String :=
  (pyDictGet r.headers "x-request-id").getD ""

/-- A `JSONResponse` whose content is a dumped `ErrorResponse`. -/
structure JSONResponse where
  status_code : Nat
  content : ErrorResponse
deriving DecidableEq, Repr

/-- The warning record `_handle_domain_error` emits before responding. -/
structure DomainLog where
  event : String
  error_type : String
  detail : String
  status_code : Nat
  extra : List (String × String)
deriving DecidableEq, Repr

/-- The handler `_handle_domain_error`: logs the failure, then returns a
response whose status is the exception's `status_code` and whose body
carries its `detail`, the same status, and the request's correlation id. -/
def _handle_domain_error (request : Request) (exc : DomainError) :
    DomainLog × JSONResponse :=
  (⟨"domain_error", exc.className, exc.detail, exc.status_code, exc.extra⟩,
   { status_code := exc.status_code,
     content := { detail := exc.detail,
                  status_code := exc.status_code,
                  request_id := _get_request_id request } })

/-- The warning record `_handle_validation_error` emits: the event name and
the per-field errors from `exc.errors()`. -/
structure ValidationLog where
  event : String
  errors : List String
deriving DecidableEq, Repr

/-- The handler `_handle_validation_error`: logs the per-field errors, then
returns a fixed 422 response whose detail never includes them. -/
def _handle_validation_error (request : Request)
    (fieldErrors : List String) : ValidationLog × JSONResponse :=
  (⟨"validation_error", fieldErrors⟩,
   { status_code := 422,
     content := { detail := "Request validation failed",
                  status_code := 422,
                  request_id := _get_request_id request } })

/-! ### ASGI model shared by the three pure-ASGI middlewares -/

/-- The part of an HTTP ASGI scope the middlewares read. Header names are
lowercase, as the ASGI specification requires of servers. -/
structure HttpScope where
  method : String
  path : String
  headers : List (String × String)
  client : Option (String × Nat)
deriving DecidableEq, Repr

/-- An ASGI scope: an HTTP exchange, or any other scope type (websocket,
lifespan, a protocol upgrade, ...), identified by its `type` string. -/
inductive AsgiScope
  | http (req : HttpScope)
  | nonHttp (ty : String)
deriving DecidableEq, Repr

/-- The outbound ASGI messages the middlewares observe. -/
inductive AsgiMessage
  | responseStart (status : Nat) (headers : List (String × String))
  | responseBody (body : String)
deriving DecidableEq, Repr

/-- What one run of an ASGI application does: the messages it sends, in
order, and the exception that escaped it, if any. -/
structure AppResult where
  sent : List AsgiMessage
  exn : Option Exn
deriving DecidableEq, Repr

/-- An ASGI application, as the behaviour a middleware wraps. -/
def AsgiApp : Type := AsgiScope → AppResult

/-- The helper `_extract_header` of the logging middleware: first header
with the given name, decoded, or the empty string. -/
def _extract_header (headers : List (String × String)) (name : String) :
    String :=
  (pyDictGet headers name).getD ""

/-- JSON rendering of an `ErrorResponse` body (model_dump field order;
string escaping is not modelled). -/
def ErrorResponse.json (e : ErrorResponse) : String :=
  "\x7b\"detail\": \"" ++ e.detail ++ "\", \"status_code\": " ++
    toString e.status_code ++ ", \"request_id\": \"" ++ e.request_id ++
    "\"\x7d"

/-- The messages `JSONResponse(status_code=..., content=...)` sends. -/
def jsonResponseMessages (status : Nat) (body : ErrorResponse) :
    List AsgiMessage :=
  [AsgiMessage.responseStart status [("content-type", "application/json")],
   AsgiMessage.responseBody body.json]

/-! ### Catch-all exception middleware (src/app/errors/middleware.py) -/

/-- The `__call__` of `UnhandledExceptionMiddleware`. A non-HTTP scope is
delegated untouched. On an HTTP scope the inner app runs; if an exception
escapes it, the middleware logs it (and swallows a failure of the logging
call itself, the `logFails` flag), then sends a fixed 500 `JSONResponse`
built only from the inbound correlation header. -/
def UnhandledExceptionMiddleware.call (app : AsgiApp) (logFails : Bool)
    (scope : AsgiScope) : AppResult :=
  match scope with
  | AsgiScope.nonHttp _ => app scope
  | AsgiScope.http req =>
    let r := app scope
    match r.exn with
    | none => r
    | some _ =>
      let request_id := _extract_header req.headers "x-request-id"
      let body : ErrorResponse :=
        { detail := "Internal server error",
          status_code := 500,
          request_id := request_id }
      { sent := r.sent ++ jsonResponseMessages 500 body, exn := none }

/-! ### Security headers middleware (src/app/security/middleware.py) -/

/-- The module constant `_DEFAULT_HEADERS`. -/
def _DEFAULT_HEADERS : List (String × String) :=
  [("X-Frame-Options", "DENY"),
   ("X-Content-Type-Options", "nosniff"),
   ("Referrer-Policy", "strict-origin-when-cross-origin"),
   ("Permissions-Policy", "geolocation=(), camera=(), microphone=()"),
   ("X-XSS-Protection", "0"),
   ("Cache-Control", "no-store")]

/-- The state `SecurityHeadersMiddleware.__init__` computes. -/
structure SecurityHeadersMiddleware where
  headers : List (String × String)
  raw_headers : List (String × String)
deriving DecidableEq, Repr

/-- Default value of the `content_security_policy` argument. -/
def defaultCsp : String := "default-src \x27self\x27"

/-- Default value of the `strict_transport_security` argument. -/
def defaultHsts : String := "max-age=31536000; includeSubDomains"

/-- The constructor `SecurityHeadersMiddleware.__init__`: start from the
defaults, add CSP and HSTS when their values are truthy (non-empty), then
apply each custom override in order — a truthy value sets the header, an
empty value pops it. `raw_headers` lowercases the names. -/
def SecurityHeadersMiddleware.new
    (content_security_policy : String := defaultCsp)
    (strict_transport_security : String := defaultHsts)
    (custom_headers : List (String × String) := []) :
    SecurityHeadersMiddleware :=
  let h0 := _DEFAULT_HEADERS
  let h1 := if content_security_policy ≠ "" then
      pyDictSet h0 "Content-Security-Policy" content_security_policy
    else h0
  let h2 := if strict_transport_security ≠ "" then
      pyDictSet h1 "Strict-Transport-Security" strict_transport_security
    else h1
  let h3 := custom_headers.foldl
    (fun d kv => if kv.2 ≠ "" then pyDictSet d kv.1 kv.2
                 else pyDictPop d kv.1) h2
  { headers := h3,
    raw_headers := h3.map (fun p => (pyLower p.1, p.2)) }

/-- The `send_with_headers` wrapper: extends the header list of every
`http.response.start` message with the middleware's raw headers; other
messages pass through. -/
def SecurityHeadersMiddleware.send_with_headers
    (mw : SecurityHeadersMiddleware) : AsgiMessage → AsgiMessage
  | AsgiMessage.responseStart status hs =>
      AsgiMessage.responseStart status (hs ++ mw.raw_headers)
  | m => m

/-- The `__call__` of `SecurityHeadersMiddleware`: a non-HTTP scope is
delegated untouched; on an HTTP scope the inner app runs with its send
channel wrapped by `send_with_headers`. -/
def SecurityHeadersMiddleware.call (mw : SecurityHeadersMiddleware)
    (app : AsgiApp) (scope : AsgiScope) : AppResult :=
  match scope with
  | AsgiScope.nonHttp _ => app scope
  | AsgiScope.http _ =>
    let r := app scope
    { sent := r.sent.map mw.send_with_headers, exn := r.exn }

/-! ### Access log middleware (src/app/logging/middleware.py) -/

/-- The structlog contextvars bindings of the current task. -/
abbrev LogContext : Type := List (String × String)

/-- The helper `_client_ip`: first entry of `X-Forwarded-For` (stripped)
when present, else the scope's client host, else the empty string. -/
def _client_ip (req : HttpScope) : String :=
  let forwarded := _extract_header req.headers "x-forwarded-for"
  if forwarded ≠ "" then
    ((forwarded.splitOn ",").headD "").trim
  else
    match req.client with
    | some c => c.1
    | none => ""

/-- The access-log record (duration_ms is wall-clock time and is not
embedded). -/
structure AccessLogRecord where
  method : String
  path : String
  status_code : Nat
  client_ip : String
deriving DecidableEq, Repr

/-- The status the `send_wrapper` has observed once the inner app is done:
the status of the last `http.response.start` sent, defaulting to 500. -/
def observedStatus (sent : List AsgiMessage) : Nat :=
  sent.foldl
    (fun st m => match m with
      | AsgiMessage.responseStart s _ => s
      | _ => st) 500

/-- Everything one call of the access-log middleware produces: the inner
result passed through, the contextvars in effect while the inner app ran,
the contextvars left after the middleware returns (or re-raises), and the
access-log line emitted in the `finally` block. -/
structure AccessLogResult where
  result : AppResult
  ctxDuring : LogContext
  ctxAfter : LogContext
  log : Option AccessLogRecord
deriving Repr

/-- The `__call__` of `AccessLogMiddleware`, threading the contextvars
state explicitly. A non-HTTP scope is delegated with the context left
alone and no access log. On an HTTP scope the middleware first clears all
contextvars, then binds `request_id` from the `x-request-id` header; the
inner app runs under that binding; the `finally` block logs the request
(on success and on exception alike) — and clears nothing. -/
def AccessLogMiddleware.call (ctx : LogContext) (app : AsgiApp)
    (scope : AsgiScope) : AccessLogResult :=
  match scope with
  | AsgiScope.nonHttp _ =>
    { result := app scope, ctxDuring := ctx, ctxAfter := ctx, log := none }
  | AsgiScope.http req =>
    let cleared : LogContext := []
    let bound : LogContext :=
      pyDictSet cleared "request_id" (_extract_header req.headers "x-request-id")
    let r := app scope
    { result := r,
      ctxDuring := bound,
      ctxAfter := bound,
      log := some { method := req.method,
                    path := req.path,
                    status_code := observedStatus r.sent,
                    client_ip := _client_ip req } }

/-! ### Health readiness endpoint (src/app/health/routes.py) -/

/-- How one awaited readiness condition behaves under `asyncio.wait_for`:
it returned a Bool, it timed out, or it raised. -/
inductive CheckOutcome
  | ok (b : Bool)
  | timeout
  | raises (e : Exn)
deriving DecidableEq, Repr

/-- A registered readiness condition: its `__name__` and its behaviour. -/
structure HealthCondition where
  name : String
  outcome : CheckOutcome
deriving DecidableEq, Repr

/-- The value recorded in the results dict for one condition: the returned
Bool, or False on a timeout or an exception (both logged, not raised). -/
def recordOutcome : CheckOutcome → Bool
  | CheckOutcome.ok b => b
  | CheckOutcome.timeout => false
  | CheckOutcome.raises _ => false

/-- The response of the readiness endpoint: HTTP status, status string,
and the per-check results mapping. -/
structure ReadinessResponse where
  status_code : Nat
  status : String
  checks : List (String × Bool)
deriving DecidableEq, Repr

/-- The `readiness` route body: run every condition in order, recording
each outcome under the condition's name (`results[name] = ...`); healthy
is `all(results.values()) if results else True`; an unhealthy aggregate
sets the response status to 503; the body always carries the mapping. -/
def readiness (conditions : List HealthCondition) : ReadinessResponse :=
  let results : List (String × Bool) := conditions.foldl
    (fun res c => pyDictSet res c.name (recordOutcome c.outcome)) []
  let healthy := if results.isEmpty then true
    else results.all (fun p => p.2)
  { status_code := if healthy then 200 else 503,
    status := if healthy then "ready" else "not_ready",
    checks := results }

/-! ### Helper lemmas -/

/-- The manager-state invariant: the engine handle is None exactly when the
session-factory handle is None. -/
def managerInv (m : DatabaseSessionManager) : Prop :=
  m._engine = none ↔ m._sessionmaker = none

theorem managerInv_step (m : DatabaseSessionManager) (op : ManagerOp)
    (h : managerInv m) : managerInv (managerStep m op) := by
  cases op with
  | init a =>
    simp [managerStep, DatabaseSessionManager.init, managerInv]
  | close =>
    simp only [managerStep, DatabaseSessionManager.close]
    by_cases he : m._engine.isSome
    · simp [he, managerInv]
    · simpa [he] using h
  | session b => exact h
  | connect b => exact h

theorem managerInv_foldl (ops : List ManagerOp) :
    ∀ m : DatabaseSessionManager, managerInv m →
      managerInv (ops.foldl managerStep m) := by
  induction ops with
  | nil => intro m h; exact h
  | cons op rest ih =>
    intro m h
    exact ih (managerStep m op) (managerInv_step m op h)

theorem managerRun_inv (ops : List ManagerOp) : managerInv (managerRun ops) :=
  managerInv_foldl ops DatabaseSessionManager.new (by simp [DatabaseSessionManager.new, managerInv])

theorem managerRun_no_init (ops : List ManagerOp)
    (h : ∀ a, ManagerOp.init a ∉ ops) :
    managerRun ops = DatabaseSessionManager.new := by
  have key : ∀ (l : List ManagerOp), (∀ a, ManagerOp.init a ∉ l) →
      l.foldl managerStep DatabaseSessionManager.new =
        DatabaseSessionManager.new := by
    intro l
    induction l with
    | nil => intro _; rfl
    | cons op rest ih =>
      intro hl
      have hop : ∀ a, op ≠ ManagerOp.init a := by
        intro a ha
        exact hl a (by simp [ha])
      have hstep : managerStep DatabaseSessionManager.new op =
          DatabaseSessionManager.new := by
        cases op with
        | init a => exact absurd rfl (hop a)
        | close => rfl
        | session b => rfl
        | connect b => rfl
      have hrest : ∀ a, ManagerOp.init a ∉ rest := by
        intro a ha
        exact hl a (List.mem_cons_of_mem _ ha)
      calc (op :: rest).foldl managerStep DatabaseSessionManager.new
          = rest.foldl managerStep (managerStep DatabaseSessionManager.new op) := rfl
        _ = rest.foldl managerStep DatabaseSessionManager.new := by rw [hstep]
        _ = DatabaseSessionManager.new := ih hrest
  exact key ops h

theorem session_fresh_not_initialized (b : BodyOutcome) :
    DatabaseSessionManager.new.session b = Except.error notInitializedExn := by
  cases b <;> rfl

theorem connect_fresh_not_initialized (b : BodyOutcome) :
    DatabaseSessionManager.new.connect b = Except.error notInitializedExn := by
  cases b <;> rfl

theorem close_after_init_eq_new (m : DatabaseSessionManager) (a : InitArgs) :
    ((m.init a).close) = DatabaseSessionManager.new := by
  simp [DatabaseSessionManager.init, DatabaseSessionManager.close,
    DatabaseSessionManager.new]

/-! ### Claim theorems: session manager -/

/-- C1: every scoped session obtained from `DatabaseSessionManager.session`
is committed then closed when the scope body completes normally, and
rolled back, re-raised, and still closed when the body raises; in every
case exactly one of commit/rollback occurs and the last event is the
release of the session. -/
theorem session_scope_commit_rollback_release
    (m : DatabaseSessionManager) (b : BodyOutcome) (t : ScopeTrace)
    (h : m.session b = Except.ok t) :
    (b = BodyOutcome.ok →
       t = { events := [SessionEvent.commit, SessionEvent.close],
             reraised := none })
    ∧ (∀ e : Exn, b = BodyOutcome.raises e →
       t = { events := [SessionEvent.rollback, SessionEvent.close],
             reraised := some e })
    ∧ t.events.count SessionEvent.commit
        + t.events.count SessionEvent.rollback = 1
    ∧ t.events.getLast? = some SessionEvent.close := by
  unfold DatabaseSessionManager.session DatabaseSessionManager._check_init at h
  by_cases hc : m._engine.isNone || m._sessionmaker.isNone
  · simp [hc, Except.map] at h
  · simp only [hc, if_false, Except.map] at h
    cases b with
    | ok =>
      simp only [sessionTryBlock] at h
      cases h
      refine ⟨fun _ => rfl, ?_, ?_, ?_⟩
      · intro e he
        exact nomatch he
      · decide
      · decide
    | raises e =>
      simp only [sessionTryBlock] at h
      cases h
      refine ⟨?_, ?_, ?_, ?_⟩
      · intro hb
        exact nomatch hb
      · intro e' he'
        injection he' with h1
        subst h1
        rfl
      · rfl
      · rfl

/-- Witness for C1 at a concrete initialized manager: the successful scope
commits then closes, and the failing scope rolls back, re-raises the
body's exception, and closes. -/
theorem session_scope_commit_rollback_release_witness :
    ((DatabaseSessionManager.new.init { url := "postgresql+asyncpg://db" }).session
        BodyOutcome.ok
      = Except.ok { events := [SessionEvent.commit, SessionEvent.close],
                    reraised := none })
    ∧ ({ events := [SessionEvent.commit, SessionEvent.close],
         reraised := none } : ScopeTrace).events.getLast?
        = some SessionEvent.close := by
  have h : (DatabaseSessionManager.new.init
        { url := "postgresql+asyncpg://db" }).session BodyOutcome.ok
      = Except.ok { events := [SessionEvent.commit, SessionEvent.close],
                    reraised := none } := rfl
  exact ⟨h, (session_scope_commit_rollback_release _ _ _ h).2.2.2⟩

/-- C6: session and connection acquisition raise the not-initialized
RuntimeError on every manager that has never been through `init` and on
every manager whose last `init` was followed by `close`; after a
(re-)`init` they succeed instead. -/
theorem manager_not_initialized_outside_init :
    (∀ ops : List ManagerOp, (∀ a, ManagerOp.init a ∉ ops) →
      ∀ b : BodyOutcome,
        (managerRun ops).session b = Except.error notInitializedExn
        ∧ (managerRun ops).connect b = Except.error notInitializedExn)
    ∧ (∀ (m : DatabaseSessionManager) (a : InitArgs) (b : BodyOutcome),
        ((m.init a).close).session b = Except.error notInitializedExn
        ∧ ((m.init a).close).connect b = Except.error notInitializedExn)
    ∧ (∀ (m : DatabaseSessionManager) (a : InitArgs) (b : BodyOutcome),
        (∃ t, (m.init a).session b = Except.ok t)
        ∧ (∃ t, (m.init a).connect b = Except.ok t)) := by
  refine ⟨?_, ?_, ?_⟩
  · intro ops hops b
    rw [managerRun_no_init ops hops]
    exact ⟨session_fresh_not_initialized b, connect_fresh_not_initialized b⟩
  · intro m a b
    rw [close_after_init_eq_new m a]
    exact ⟨session_fresh_not_initialized b, connect_fresh_not_initialized b⟩
  · intro m a b
    constructor
    · refine ⟨{ events := (sessionTryBlock b).1 ++ [SessionEvent.close],
                reraised := (sessionTryBlock b).2 }, ?_⟩
      simp [DatabaseSessionManager.session, DatabaseSessionManager._check_init,
        DatabaseSessionManager.init, Except.map]
    · cases b with
      | ok =>
        exact ⟨{ events := [SessionEvent.commit], reraised := none }, by
          simp [DatabaseSessionManager.connect,
            DatabaseSessionManager._check_init, DatabaseSessionManager.init,
            Except.map]⟩
      | raises e =>
        exact ⟨{ events := [SessionEvent.rollback], reraised := some e }, by
          simp [DatabaseSessionManager.connect,
            DatabaseSessionManager._check_init, DatabaseSessionManager.init,
            Except.map]⟩

/-- Witness for C6: on a fresh manager with no `init` in its history both
acquisitions fail with the not-initialized error, and after `init` then
`close` the failure recurs. -/
theorem manager_not_initialized_outside_init_witness :
    ((managerRun [ManagerOp.close, ManagerOp.session BodyOutcome.ok]).session
        BodyOutcome.ok = Except.error notInitializedExn)
    ∧ ((DatabaseSessionManager.new.init { url := "db" }).close.session
        BodyOutcome.ok = Except.error notInitializedExn) := by
  have h1 := (manager_not_initialized_outside_init.1
    [ManagerOp.close, ManagerOp.session BodyOutcome.ok]
    (by intro a ha; simp at ha) BodyOutcome.ok).1
  have h2 := (manager_not_initialized_outside_init.2.1
    DatabaseSessionManager.new { url := "db" } BodyOutcome.ok).1
  exact ⟨h1, h2⟩

/-- C10: a fresh manager holds no engine and no factory; after `init` both
handles are set; running `close` at the end of any operation history
clears both; `session` and `connect` steps never change the state; and
every reachable state satisfies the engine-None-iff-factory-None
invariant, so it holds either a complete live pair or none. -/
theorem manager_state_pair_invariant :
    (DatabaseSessionManager.new._engine = none
      ∧ DatabaseSessionManager.new._sessionmaker = none)
    ∧ (∀ ops : List ManagerOp,
        (managerRun ops)._engine = none
          ↔ (managerRun ops)._sessionmaker = none)
    ∧ (∀ (m : DatabaseSessionManager) (a : InitArgs),
        ((m.init a)._engine).isSome = true
          ∧ ((m.init a)._sessionmaker).isSome = true)
    ∧ (∀ ops : List ManagerOp,
        (managerRun (ops ++ [ManagerOp.close]))._engine = none
          ∧ (managerRun (ops ++ [ManagerOp.close]))._sessionmaker = none)
    ∧ (∀ (m : DatabaseSessionManager) (b : BodyOutcome),
        managerStep m (ManagerOp.session b) = m
          ∧ managerStep m (ManagerOp.connect b) = m) := by
  refine ⟨⟨rfl, rfl⟩, ?_, ?_, ?_, fun m b => ⟨rfl, rfl⟩⟩
  · intro ops
    exact managerRun_inv ops
  · intro m a
    simp [DatabaseSessionManager.init]
  · intro ops
    have hrun : managerRun (ops ++ [ManagerOp.close])
        = (managerRun ops).close := by
      simp [managerRun, List.foldl_append, managerStep]
    rw [hrun]
    have hinv := managerRun_inv ops
    by_cases he : (managerRun ops)._engine.isSome
    · simp [DatabaseSessionManager.close, he]
    · have hen : (managerRun ops)._engine = none := by
        cases h : (managerRun ops)._engine with
        | none => rfl
        | some e => rw [h] at he; simp at he
      have hsm : (managerRun ops)._sessionmaker = none := hinv.mp hen
      simp [DatabaseSessionManager.close, he, hen, hsm]

/-! ### Claim theorems: error response pipeline -/

/-- C2: for every domain failure, however constructed, the handler's
response status and the body's `status_code` equal the failure's status
hint (class default or constructor override) and the body's `detail`
equals the failure's detail exactly; in particular a not-found failure
for resource "Order" with no correlation header yields 404 with body
detail "Order not found", status_code 404 and empty request_id. -/
theorem domain_error_response_status_and_detail :
    (∀ (c : DomainErrorCtor) (req : Request),
        (_handle_domain_error req c.construct).2.status_code = c.statusHint
        ∧ (_handle_domain_error req c.construct).2.content.detail
            = c.construct.detail
        ∧ (_handle_domain_error req c.construct).2.content.status_code
            = c.statusHint
        ∧ (_handle_domain_error req c.construct).2.content.request_id
            = _get_request_id req)
    ∧ _handle_domain_error { headers := [] } (NotFoundError.new "Order" [])
        = (⟨"domain_error", "NotFoundError", "Order not found", 404, []⟩,
           { status_code := 404,
             content := { detail := "Order not found",
                          status_code := 404,
                          request_id := "" } }) := by
  constructor
  · intro c req
    cases c <;> exact ⟨rfl, rfl, rfl, rfl⟩
  · rfl

/-- C3: whenever an unclassified exception escapes the inner application on
an HTTP exchange, the catch-all middleware responds with fixed status 500,
fixed detail "Internal server error" and the request_id read from the
inbound correlation header — the result is literally independent of the
exception value and of whether the server-side logging call fails, so the
exception's type name and message never reach the body; with no
correlation header the request_id is the empty string. -/
theorem unhandled_exception_fixed_500 (req : HttpScope)
    (sent : List AsgiMessage) (e : Exn) (logFails : Bool) :
    (UnhandledExceptionMiddleware.call
        (fun _ => { sent := sent, exn := some e }) logFails
        (AsgiScope.http req)
      = { sent := sent ++ jsonResponseMessages 500
            { detail := "Internal server error",
              status_code := 500,
              request_id := _extract_header req.headers "x-request-id" },
          exn := none })
    ∧ (∀ (e' : Exn) (logFails' : Bool),
        UnhandledExceptionMiddleware.call
            (fun _ => { sent := sent, exn := some e' }) logFails'
            (AsgiScope.http req)
          = UnhandledExceptionMiddleware.call
              (fun _ => { sent := sent, exn := some e }) logFails
              (AsgiScope.http req))
    ∧ (UnhandledExceptionMiddleware.call
        (fun _ => { sent := [], exn := some e }) logFails
        (AsgiScope.http
          { method := "GET", path := "/x", headers := [], client := none })
      = { sent := jsonResponseMessages 500
            { detail := "Internal server error",
              status_code := 500,
              request_id := "" },
          exn := none }) :=
  ⟨rfl, fun _ _ => rfl, rfl⟩

/-- C7: every request-shape validation failure is answered with fixed
status 422, fixed detail "Request validation failed" and the request_id
from the correlation header, while the per-field errors go only into the
server-side log record — the response does not depend on them. -/
theorem validation_error_fixed_response (req : Request)
    (fieldErrors : List String) :
    (_handle_validation_error req fieldErrors
      = (⟨"validation_error", fieldErrors⟩,
         { status_code := 422,
           content := { detail := "Request validation failed",
                        status_code := 422,
                        request_id := _get_request_id req } }))
    ∧ (∀ other : List String,
        (_handle_validation_error req other).2
          = (_handle_validation_error req fieldErrors).2) :=
  ⟨rfl, fun _ => rfl⟩

/-! ### Helper lemmas for the readiness aggregation -/

/-- The condition fold of the readiness route body. -/
def readinessFold (conditions : List HealthCondition) : List (String × Bool) :=
  conditions.foldl
    (fun res c => pyDictSet res c.name (recordOutcome c.outcome)) []

theorem readiness_unfold (cs : List HealthCondition) :
    readiness cs =
      { status_code := if (readinessFold cs).all (fun p => p.2) then 200 else 503,
        status := if (readinessFold cs).all (fun p => p.2) then "ready"
          else "not_ready",
        checks := readinessFold cs } := by
  simp only [readiness, readinessFold]
  cases h : (cs.foldl
      (fun res c => pyDictSet res c.name (recordOutcome c.outcome)) []).isEmpty with
  | true =>
    have he := List.isEmpty_iff.mp h
    simp [he]
  | false =>
    simp

theorem pyDictSet_any_self {α : Type} (d : List (String × α)) (k : String)
    (v : α) : (pyDictSet d k v).any (fun p => p.1 == k) = true := by
  unfold pyDictSet
  by_cases h : d.any (fun p => p.1 == k)
  · simp only [h, if_true]
    rcases List.any_eq_true.mp h with ⟨p, hp, hpk⟩
    refine List.any_eq_true.mpr ⟨(k, v), List.mem_map.mpr ⟨p, hp, ?_⟩, ?_⟩
    · simp [hpk]
    · simp
  · simp [h]

theorem pyDictSet_any_mono {α : Type} (d : List (String × α)) (k n : String)
    (v : α) (h : d.any (fun p => p.1 == n) = true) :
    (pyDictSet d k v).any (fun p => p.1 == n) = true := by
  unfold pyDictSet
  by_cases hk : d.any (fun p => p.1 == k)
  · simp only [hk, if_true]
    rcases List.any_eq_true.mp h with ⟨p, hp, hpn⟩
    by_cases hpk : p.1 == k
    · refine List.any_eq_true.mpr ⟨(k, v), List.mem_map.mpr ⟨p, hp, ?_⟩, ?_⟩
      · simp [hpk]
      · have h1 : p.1 = k := by simpa using hpk
        have h2 : p.1 = n := by simpa using hpn
        simp [← h1, h2]
    · refine List.any_eq_true.mpr ⟨p, List.mem_map.mpr ⟨p, hp, ?_⟩, hpn⟩
      simp [hpk]
  · simp only [hk, if_false, List.any_append]
    simp [h]

theorem readinessFold_step_any (cs : List HealthCondition) :
    ∀ (d : List (String × Bool)) (n : String),
      d.any (fun p => p.1 == n) = true →
      (cs.foldl (fun res c => pyDictSet res c.name (recordOutcome c.outcome))
        d).any (fun p => p.1 == n) = true := by
  induction cs with
  | nil => intro d n h; exact h
  | cons c rest ih =>
    intro d n h
    exact ih _ n (pyDictSet_any_mono d c.name n (recordOutcome c.outcome) h)

theorem readinessFold_mem_any (cs : List HealthCondition) :
    ∀ (d : List (String × Bool)) (c : HealthCondition), c ∈ cs →
      (cs.foldl (fun res c => pyDictSet res c.name (recordOutcome c.outcome))
        d).any (fun p => p.1 == c.name) = true := by
  induction cs with
  | nil => intro d c h; exact absurd h (List.not_mem_nil c)
  | cons c0 rest ih =>
    intro d c h
    rcases List.mem_cons.mp h with h0 | hrest
    · subst h0
      exact readinessFold_step_any rest _ c.name
        (pyDictSet_any_self d c.name (recordOutcome c.outcome))
    · exact ih _ c hrest

theorem readinessFold_outcome_congr (post : List HealthCondition)
    (n : String) (o o' : CheckOutcome)
    (h : recordOutcome o = recordOutcome o') :
    ∀ (pre : List HealthCondition) (d : List (String × Bool)),
      (pre ++ { name := n, outcome := o } :: post).foldl
        (fun res c => pyDictSet res c.name (recordOutcome c.outcome)) d
      = (pre ++ { name := n, outcome := o' } :: post).foldl
        (fun res c => pyDictSet res c.name (recordOutcome c.outcome)) d := by
  intro pre
  induction pre with
  | nil =>
    intro d
    simp only [List.nil_append, List.foldl_cons, h]
  | cons p rest ih =>
    intro d
    simp only [List.cons_append, List.foldl_cons]
    exact ih _

/-! ### Claim theorem: readiness aggregation -/

/-- C4: the readiness endpoint records an outcome for every registered
condition (a timed-out or raising condition is recorded as `false` and is
interchangeable with a condition returning `false`, so later checks still
run); the aggregate is healthy — HTTP 200 with status "ready" — exactly
when every recorded outcome is `true` (vacuously with zero conditions),
otherwise HTTP 503 with status "not_ready"; and the body always carries
the per-check mapping. -/
theorem readiness_aggregation :
    (readiness [] = { status_code := 200, status := "ready", checks := [] })
    ∧ (∀ cs : List HealthCondition,
        ((readiness cs).status_code = 200 ∧ (readiness cs).status = "ready")
          ↔ (readiness cs).checks.all (fun p => p.2) = true)
    ∧ (∀ cs : List HealthCondition,
        (readiness cs).checks.all (fun p => p.2) ≠ true →
          (readiness cs).status_code = 503
          ∧ (readiness cs).status = "not_ready")
    ∧ (∀ cs : List HealthCondition, (readiness cs).checks = readinessFold cs)
    ∧ (∀ (pre post : List HealthCondition) (n : String) (e : Exn),
        readiness (pre ++ { name := n, outcome := CheckOutcome.timeout } :: post)
          = readiness
              (pre ++ { name := n, outcome := CheckOutcome.ok false } :: post)
        ∧ readiness (pre ++ { name := n, outcome := CheckOutcome.raises e } :: post)
          = readiness
              (pre ++ { name := n, outcome := CheckOutcome.ok false } :: post))
    ∧ (∀ (cs : List HealthCondition) (c : HealthCondition), c ∈ cs →
        (readiness cs).checks.any (fun p => p.1 == c.name) = true) := by
  refine ⟨rfl, ?_, ?_, ?_, ?_, ?_⟩
  · intro cs
    rw [readiness_unfold cs]
    by_cases h : (readinessFold cs).all (fun p => p.2)
    · simp [h]
    · simp [h]
  · intro cs h
    rw [readiness_unfold cs] at h ⊢
    by_cases hall : (readinessFold cs).all (fun p => p.2)
    · simp [hall] at h
    · simp [hall]
  · intro cs
    rw [readiness_unfold cs]
  · intro pre post n e
    constructor
    · have hf := readinessFold_outcome_congr post n CheckOutcome.timeout
        (CheckOutcome.ok false) rfl pre []
      rw [readiness_unfold, readiness_unfold]
      rw [show readinessFold
            (pre ++ { name := n, outcome := CheckOutcome.timeout } :: post)
          = readinessFold
            (pre ++ { name := n, outcome := CheckOutcome.ok false } :: post)
        from hf]
    · have hf := readinessFold_outcome_congr post n (CheckOutcome.raises e)
        (CheckOutcome.ok false) rfl pre []
      rw [readiness_unfold, readiness_unfold]
      rw [show readinessFold
            (pre ++ { name := n, outcome := CheckOutcome.raises e } :: post)
          = readinessFold
            (pre ++ { name := n, outcome := CheckOutcome.ok false } :: post)
        from hf]
  · intro cs c h
    rw [readiness_unfold cs]
    exact readinessFold_mem_any cs [] c h

/-- Witness for C4 at one timing-out condition: the aggregate is 503 and
"not_ready" and the condition's entry is recorded (as false). -/
theorem readiness_aggregation_witness :
    ((readiness [{ name := "db", outcome := CheckOutcome.timeout }]).status_code
        = 503)
    ∧ ((readiness [{ name := "db", outcome := CheckOutcome.timeout }]).status
        = "not_ready")
    ∧ ((readiness [{ name := "db", outcome := CheckOutcome.timeout }]).checks.any
        (fun p => p.1 == "db") = true)
    ∧ (((readiness []).status_code = 200 ∧ (readiness []).status = "ready")
        ↔ (readiness []).checks.all (fun p => p.2) = true) := by
  have h3 := readiness_aggregation.2.2.1
    [{ name := "db", outcome := CheckOutcome.timeout }] (by decide)
  have h6 := readiness_aggregation.2.2.2.2.2
    [{ name := "db", outcome := CheckOutcome.timeout }]
    { name := "db", outcome := CheckOutcome.timeout } (by simp)
  have h2 := readiness_aggregation.2.1 []
  exact ⟨h3.1, h3.2, h6, h2⟩

/-! ### Helper lemmas for the security-headers middleware -/

theorem pyDictGet_set_self {α : Type} (d : List (String × α)) (k : String)
    (v : α) : pyDictGet (pyDictSet d k v) k = some v := by
  unfold pyDictSet pyDictGet
  by_cases h : d.any (fun p => p.1 == k)
  · simp only [h, if_true]
    rw [List.find?_map]
    have hpred : ((fun p : String × α => p.1 == k) ∘
        (fun p : String × α => if p.1 == k then (k, v) else p))
        = fun p : String × α => p.1 == k := by
      funext p
      by_cases hp : p.1 = k
      · simp [hp]
      · simp [hp]
    rw [hpred]
    cases hq : d.find? (fun p => p.1 == k) with
    | none =>
      rcases List.any_eq_true.mp h with ⟨p, hp, hpk⟩
      rw [List.find?_eq_none] at hq
      exact absurd hpk (hq p hp)
    | some q =>
      have hqk := List.find?_some hq
      simp only [beq_iff_eq] at hqk
      simp [hqk]
  · have hf : d.any (fun p => p.1 == k) = false := by
      rw [← Bool.not_eq_true]
      exact h
    simp only [hf, Bool.false_eq_true, if_false]
    rw [List.find?_append]
    have hnone : d.find? (fun p => p.1 == k) = none := by
      rw [List.find?_eq_none]
      intro x hx hpx
      exact h (List.any_eq_true.mpr ⟨x, hx, hpx⟩)
    simp [hnone, List.find?]

theorem pyDictPop_all_ne {α : Type} (d : List (String × α)) (k : String) :
    (pyDictPop d k).all (fun p => p.1 != k) = true := by
  unfold pyDictPop
  rw [List.all_eq_true]
  intro x hx
  exact (List.mem_filter.mp hx).2

/-- The middleware as `create_app` would build it with no custom
overrides and the default CSP and HSTS arguments. -/
def defaultSecurity : SecurityHeadersMiddleware := SecurityHeadersMiddleware.new

/-- The canonical names of the headers the default configuration carries. -/
def defaultHeaderNames : List String :=
  ["X-Frame-Options", "X-Content-Type-Options", "Referrer-Policy",
   "Permissions-Policy", "X-XSS-Protection", "Cache-Control",
   "Content-Security-Policy", "Strict-Transport-Security"]

/-! ### Claim theorem: security headers -/

/-- C5: the default wrapper appends its full header set — frame options,
content-type sniffing prevention, referrer policy, permissions policy,
disabled legacy XSS filter, cache suppression and content-security-policy
(plus HSTS under the default arguments) — to every `http.response.start`
message the wrapped application produces, whatever its status; a custom
override with a non-empty value replaces that header's value in the set;
an empty override removes the header from the set, and for any header of
the default set so removed, no header of that (lowercased) name remains
among the appended headers; the wrapper alters responses in no other
way. -/
theorem security_headers_append_override_remove :
    (defaultSecurity.raw_headers =
      [("x-frame-options", "DENY"),
       ("x-content-type-options", "nosniff"),
       ("referrer-policy", "strict-origin-when-cross-origin"),
       ("permissions-policy", "geolocation=(), camera=(), microphone=()"),
       ("x-xss-protection", "0"),
       ("cache-control", "no-store"),
       ("content-security-policy", "default-src \x27self\x27"),
       ("strict-transport-security", "max-age=31536000; includeSubDomains")])
    ∧ (∀ (app : AsgiApp) (req : HttpScope) (st : Nat)
        (hs : List (String × String)),
        AsgiMessage.responseStart st hs ∈ (app (AsgiScope.http req)).sent →
          AsgiMessage.responseStart st (hs ++ defaultSecurity.raw_headers)
            ∈ (defaultSecurity.call app (AsgiScope.http req)).sent)
    ∧ (∀ (csp hsts k v : String), v ≠ "" →
        pyDictGet (SecurityHeadersMiddleware.new csp hsts [(k, v)]).headers k
          = some v)
    ∧ (∀ (csp hsts k : String),
        (SecurityHeadersMiddleware.new csp hsts [(k, "")]).headers.all
          (fun p => p.1 != k) = true)
    ∧ (∀ k : String, k ∈ defaultHeaderNames →
        (SecurityHeadersMiddleware.new defaultCsp defaultHsts
          [(k, "")]).raw_headers.all (fun p => p.1 != pyLower k) = true)
    ∧ (∀ (mw : SecurityHeadersMiddleware) (app : AsgiApp) (req : HttpScope),
        (mw.call app (AsgiScope.http req)).sent
          = (app (AsgiScope.http req)).sent.map mw.send_with_headers
        ∧ (mw.call app (AsgiScope.http req)).exn
          = (app (AsgiScope.http req)).exn) := by
  refine ⟨by decide, ?_, ?_, ?_, ?_, fun mw app req => ⟨rfl, rfl⟩⟩
  · intro app req st hs hmem
    have h1 : defaultSecurity.send_with_headers (AsgiMessage.responseStart st hs)
        = AsgiMessage.responseStart st (hs ++ defaultSecurity.raw_headers) := rfl
    have h2 := List.mem_map_of_mem defaultSecurity.send_with_headers hmem
    rw [h1] at h2
    exact h2
  · intro csp hsts k v hv
    simp only [SecurityHeadersMiddleware.new, List.foldl_cons, List.foldl_nil]
    simp [hv]
    exact pyDictGet_set_self _ k v
  · intro csp hsts k
    simp only [SecurityHeadersMiddleware.new, List.foldl_cons, List.foldl_nil]
    rw [if_neg (by simp)]
    exact pyDictPop_all_ne _ k
  · intro k hk
    fin_cases hk <;> decide

/-- Witness for C5: a 404 error response gains the default header set; a
non-empty override of the frame-options header replaces its value; an
empty override removes it so the appended set carries no frame-options
header. -/
theorem security_headers_append_override_remove_witness :
    (AsgiMessage.responseStart 404
        ([("content-type", "application/json")] ++ defaultSecurity.raw_headers)
      ∈ (defaultSecurity.call
          (fun _ => { sent := [AsgiMessage.responseStart 404
                        [("content-type", "application/json")]],
                      exn := none })
          (AsgiScope.http
            { method := "GET", path := "/nope", headers := [],
              client := none })).sent)
    ∧ (pyDictGet (SecurityHeadersMiddleware.new defaultCsp defaultHsts
        [("X-Frame-Options", "SAMEORIGIN")]).headers "X-Frame-Options"
        = some "SAMEORIGIN")
    ∧ ((SecurityHeadersMiddleware.new defaultCsp defaultHsts
        [("X-Frame-Options", "")]).raw_headers.all
          (fun p => p.1 != "x-frame-options") = true) := by
  have h := security_headers_append_override_remove
  refine ⟨?_, ?_, ?_⟩
  · exact h.2.1 _ _ 404 _ (by simp)
  · exact h.2.2.1 defaultCsp defaultHsts "X-Frame-Options" "SAMEORIGIN"
      (by decide)
  · exact h.2.2.2.2.1 "X-Frame-Options" (by decide)

/-! ### Claim theorems: access-log correlation binding and non-HTTP
pass-through -/

/-- A concrete inner application for the correlation-binding scenario. -/
def pingApp : AsgiApp :=
  fun _ => { sent := [AsgiMessage.responseStart 200 []], exn := none }

/-- A concrete HTTP exchange carrying the correlation header "abc". -/
def pingScope : AsgiScope :=
  AsgiScope.http
    { method := "GET", path := "/ping",
      headers := [("x-request-id", "abc")], client := none }

/-- C8 counterexample: after the access-log wrapper finishes handling a
request whose correlation header was "abc", the `request_id` binding is
still present in the logging context — the wrapper does not clear it at
request end, contradicting the claim at this input. -/
theorem access_log_binding_not_cleared_at_end :
    ((AccessLogMiddleware.call [] pingApp pingScope).ctxAfter
        = [("request_id", "abc")])
    ∧ ¬ ((AccessLogMiddleware.call [] pingApp pingScope).ctxAfter.all
        (fun p => p.1 != "request_id") = true) := by
  constructor
  · rfl
  · decide

/-- C8 amended: the wrapper clears all contextvar bindings at the start of
each HTTP request, before binding the new correlation identifier — so the
binding in effect while a request is handled is exactly the one from that
request's own correlation header, whatever bindings an earlier request
left behind (no leakage into a later request); the binding itself remains
set when the wrapper returns, until the next request's initial clear. -/
theorem access_log_binding_cleared_at_start (ctx : LogContext)
    (app : AsgiApp) (req : HttpScope) :
    ((AccessLogMiddleware.call ctx app (AsgiScope.http req)).ctxDuring
      = [("request_id", _extract_header req.headers "x-request-id")])
    ∧ ((AccessLogMiddleware.call ctx app (AsgiScope.http req)).ctxAfter
      = [("request_id", _extract_header req.headers "x-request-id")])
    ∧ ((AccessLogMiddleware.call ctx app (AsgiScope.http req)).result
      = app (AsgiScope.http req)) :=
  ⟨rfl, rfl, rfl⟩

/-- C9: on every non-HTTP ASGI scope each of the three wrappers delegates
to the inner application with an identical result: no messages are
changed, no exception is intercepted, the logging context is untouched
and no access log is emitted. -/
theorem non_http_passthrough (ty : String) (app : AsgiApp)
    (ctx : LogContext) (logFails : Bool) (csp hsts : String)
    (custom : List (String × String)) :
    (UnhandledExceptionMiddleware.call app logFails (AsgiScope.nonHttp ty)
      = app (AsgiScope.nonHttp ty))
    ∧ ((SecurityHeadersMiddleware.new csp hsts custom).call app
        (AsgiScope.nonHttp ty) = app (AsgiScope.nonHttp ty))
    ∧ (AccessLogMiddleware.call ctx app (AsgiScope.nonHttp ty)
      = { result := app (AsgiScope.nonHttp ty), ctxDuring := ctx,
          ctxAfter := ctx, log := none }) :=
  ⟨rfl, rfl, rfl⟩

end Pysonica
